import Mathlib

/-!
Verification model of the QnA-Chatbot-API RAG pipeline
(`app/rag_pipeline.py` and `app/main.py`).

Python strings are modelled as `List Char`; the external collaborators
(the LangChain text splitter, the file loaders and the retrieval-QA chain)
are modelled as fields of an explicit `World` environment, so that every
pipeline operation is a pure function of the environment, the pipeline
object state and the persisted store state.
-/

namespace RAG

/-- Python strings are modelled as lists of unicode characters, so that
`len`, slicing and substring search coincide with code-point counting. -/
abbrev Str := List Char

/-- Whitespace class of Python's `\s` and `str.strip`, restricted to the
ASCII whitespace characters (the model does not cover exotic unicode
whitespace, which the repository's corpus never exercises). -/
def isPySpace (c : Char) : Bool :=
  c == ' ' || c == '\t' || c == '\n' || c == '\r' || c == '\x0b' || c == '\x0c'

/-- Sentence-ending punctuation of the lookbehind class `[.!?]` in
`rag_pipeline.py` line 294. -/
def isSentEnd (c : Char) : Bool :=
  c == '.' || c == '!' || c == '?'

/-- Tests whether a string starts with a whitespace character. -/
def startsWithSpace : Str → Bool
  | [] => false
  | d :: _ => isPySpace d

/-- Python `str.strip()`: drop whitespace from both ends. -/
def pyStrip (s : Str) : Str :=
  ((s.dropWhile isPySpace).reverse.dropWhile isPySpace).reverse

/-- Boolean prefix test on character lists. -/
def isPrefixB : Str → Str → Bool
  | [], _ => true
  | _ :: _, [] => false
  | a :: s, b :: t => a == b && isPrefixB s t

/-- Python's substring operator `pat in s`: `pat` occurs contiguously in `s`. -/
def inStr (pat : Str) : Str → Bool
  | [] => isPrefixB pat []
  | c :: rest => isPrefixB pat (c :: rest) || inStr pat rest

/-- Worker of `pyReplace` for a nonempty pattern, structurally recursive on
the scanned string: `skip` counts characters of an already-matched
occurrence still to be consumed. -/
def pyReplaceAux (pat rep : Str) (skip : Nat) : Str → Str
  | [] => []
  | c :: rest =>
    match skip with
    | Nat.succ k => pyReplaceAux pat rep k rest
    | 0 =>
      if isPrefixB pat (c :: rest) then
        rep ++ pyReplaceAux pat rep (pat.length - 1) rest
      else
        c :: pyReplaceAux pat rep 0 rest

/-- Python `s.replace(pat, rep)`: replace every non-overlapping occurrence of
`pat` in `s`, scanning left to right.  The empty-pattern case follows Python,
which inserts `rep` before every character and at the end (the pipeline only
calls replace with patterns longer than 20 characters). -/
def pyReplace (pat rep : Str) (s : Str) : Str :=
  if pat.isEmpty then
    rep ++ (s.map (fun c => c :: rep)).flatten
  else
    pyReplaceAux pat rep 0 s

/-- Scanner worker for the sentence splitter: when `skip` is true the
scanner is consuming the whitespace run of a separator; `acc` carries the
current unit reversed (and is empty while skipping).  On leaving skip mode
the first character of the new unit is examined with the same
sentence-end-then-whitespace test as in normal mode, because the regex
engine resumes scanning directly after the consumed whitespace run: on
`x. ! y` the unit-initial `!` is itself followed by whitespace and ends its
one-character unit, giving `x.`, `!`, `y`. -/
def splitAux (skip : Bool) (acc : Str) : Str → List Str
  | [] => if skip then [[]] else [acc.reverse]
  | c :: rest =>
    if skip then
      if isPySpace c then splitAux true acc rest
      else
        if isSentEnd c && startsWithSpace rest then
          [c] :: splitAux true [] rest
        else
          splitAux false [c] rest
    else
      if isSentEnd c && startsWithSpace rest then
        (acc.reverse ++ [c]) :: splitAux true [] rest
      else
        splitAux false (c :: acc) rest

/-- Splitter of `re.split(r'(?<=[.!?])\s+', context)` (`rag_pipeline.py`
line 294): a unit ends at a `[.!?]` character that is immediately followed
by whitespace; the entire whitespace run is consumed as the separator. -/
def splitSentences (acc : Str) (s : Str) : List Str :=
  splitAux false acc s

/-- Markdown bold wrapping `f"**{clean_sentence}**"` of `rag_pipeline.py`
line 304. -/
def boldWrap (s : Str) : Str :=
  '*' :: '*' :: s ++ ['*', '*']

/-- Body of the inner loop of `highlight_context` (`rag_pipeline.py` lines
296-305): strip the sentence; when its length strictly exceeds 20 and it
occurs in the ORIGINAL answer, replace every occurrence in the working
string with the bold-wrapped form; otherwise leave the working string. -/
def highlightStep (answer work sentence : Str) : Str :=
  let clean := pyStrip sentence
  if 20 < clean.length ∧ inStr clean answer = true then
    pyReplace clean (boldWrap clean) work
  else
    work

/-- Model of `RAGPipeline.highlight_context` (`rag_pipeline.py` lines
278-307): nested loops over contexts and their sentence units, threading the
progressively modified answer. -/
def highlight_context (answer : Str) (contexts : List Str) : Str :=
  contexts.foldl
    (fun work ctx => (splitSentences [] ctx).foldl (highlightStep answer) work)
    answer

/-- All sentence units of all contexts, in context-then-sentence order. -/
def contextUnits (contexts : List Str) : List Str :=
  (contexts.map (fun ctx => splitSentences [] ctx)).flatten

/-- Model of `os.path.basename` for POSIX paths (`rag_pipeline.py` line 259):
the characters after the last slash. -/
def basename (p : Str) : Str :=
  (p.reverse.takeWhile (fun c => c ≠ '/')).reverse

/-- Order-fixing model of Python's `list(set(xs))` (`rag_pipeline.py` line
258): keep the first occurrence of every element.  The set's iteration order
is unspecified in Python, so theorems about it only state order-independent
facts (membership, uniqueness, length). -/
def dedupFirst {α : Type} [DecidableEq α] : List α → List α
  | [] => []
  | x :: xs => x :: (dedupFirst xs).filter (fun y => decide (y ≠ x))

/-- Error kinds distinguishable in the source, plus `emptyCorpus`, the
`EmptyCorpusError` kind named by the specification (no code path produces
it: the repository defines no such exception). -/
inductive Err
  /-- ValueError of `load_documents` (line 60): documents path missing. -/
  | valueDocsPathMissing
  /-- ValueError of `load_vector_store` (line 167): store path missing. -/
  | valueStorePathMissing
  /-- Failure raised inside `FAISS.load_local` (line 169) when the path
  exists but does not hold a valid serialized index. -/
  | loadLocalFailure
  /-- IndexError raised inside `FAISS.from_documents` (line 124) when the
  chunk list is empty (the library evaluates `embeddings[0]`). -/
  | indexErrorEmpty
  /-- ValueError of `ask` (line 249): QA chain not initialized. -/
  | qaChainNotInitialized
  /-- ValueError of `add_documents` (line 317): vector store not
  initialized. -/
  | vectorStoreNotInitialized
  /-- Failure of `TextLoader.load` (line 324) on an unreadable file. -/
  | readError
  /-- EmptyCorpusError as named by the specification; never raised by the
  code. -/
  | emptyCorpus
deriving DecidableEq

/-- LangChain `Document` as the pipeline uses it: page content plus the
`source` metadata entry set by the loaders (`None` when absent, in which
case `ask` falls back to the string `unknown`, line 259). -/
structure Document where
  content : Str
  source : Option Str
deriving DecidableEq

/-- Pipeline object state: the two mutable fields of `RAGPipeline`
(`rag_pipeline.py` lines 39-40).  `qaChain = true` models
`self.qa_chain is not None`; the vector store holds its chunk list (the
embedding vectors are abstracted away, no claim depends on them). -/
structure PState where
  vectorStore : Option (List Document)
  qaChain : Bool
deriving DecidableEq

/-- State of the persisted index location on disk: absent, present but not a
valid serialized index, or a valid index holding chunks. -/
inductive StoreState
  | absent
  | invalid
  | valid (chunks : List Document)
deriving DecidableEq

/-- Whether `Path(settings.vector_store_path).exists()` holds
(`rag_pipeline.py` line 189): true for both a valid and a corrupt store. -/
def storePathExists : StoreState → Bool
  | StoreState.absent => false
  | _ => true

/-- External collaborators of the pipeline, modelled as an explicit
environment: the documents directory and its loaders (`load_documents`),
the LangChain `RecursiveCharacterTextSplitter` (`split_documents`), the
per-file `TextLoader` (`add_documents`), and the retrieval-QA chain invoked
by `ask` (remote LLM plus retriever, a black box returning the answer text
and the retrieved source documents). -/
structure World where
  docsPathExists : Bool
  docs : List Document
  splitter : List Document → List Document
  readFile : Str → Except Err (List Document)
  chain : Str → Str × List Document

/-- Model of `RAGPipeline.load_documents` (lines 44-87): error when the
documents path does not exist, else the loaded documents. -/
def load_documents (w : World) : Except Err (List Document) :=
  if w.docsPathExists then Except.ok w.docs else Except.error Err.valueDocsPathMissing

/-- Model of `RAGPipeline.create_vector_store` (lines 112-131), i.e. of
`FAISS.from_documents`: the library raises IndexError on an empty chunk
list, otherwise the index holds exactly the given chunks. -/
def create_vector_store : List Document → Except Err (List Document)
  | [] => Except.error Err.indexErrorEmpty
  | c :: rest => Except.ok (c :: rest)

/-- Model of `RAGPipeline.load_vector_store` (lines 153-177): ValueError
when the path is missing, the `FAISS.load_local` failure when the path
exists but is not a valid index, else the persisted chunks. -/
def load_vector_store : StoreState → Except Err (List Document)
  | StoreState.absent => Except.error Err.valueStorePathMissing
  | StoreState.invalid => Except.error Err.loadLocalFailure
  | StoreState.valid c => Except.ok c

/-- Model of `RAGPipeline.initialize_vector_store` (lines 179-200): when the
store path exists and no rebuild is forced, load the persisted index (any
load failure propagates, there is no try/except); otherwise load the
documents, split them, build a fresh index and persist it.  Afterwards
`_create_qa_chain` sets the QA chain.  Every raise in the source occurs
before any assignment to `self.vector_store` or any save, so an error
result models an unchanged pipeline object and disk. -/
def initialize_vector_store (w : World) (force : Bool) (st : PState)
    (disk : StoreState) : Except Err (PState × StoreState) :=
  if storePathExists disk && !force then
    match load_vector_store disk with
    | Except.error e => Except.error e
    | Except.ok vs =>
      Except.ok ({ st with vectorStore := some vs, qaChain := true }, disk)
  else
    match load_documents w with
    | Except.error e => Except.error e
    | Except.ok docs =>
      match create_vector_store (w.splitter docs) with
      | Except.error e => Except.error e
      | Except.ok vs =>
        Except.ok ({ st with vectorStore := some vs, qaChain := true },
          StoreState.valid vs)

/-- Pipeline object and disk as observed by the caller after
`initialize_vector_store` returns or raises: on an exception both are
unchanged (all raises occur before any mutation, see the model above). -/
def runInitializeVectorStore (w : World) (force : Bool) (st : PState)
    (disk : StoreState) : PState × StoreState :=
  match initialize_vector_store w force st disk with
  | Except.ok r => r
  | Except.error _ => (st, disk)

/-- Model of the loading loop of `add_documents` (lines 322-326): load each
file in order with `TextLoader`, extending the accumulated document list;
the first failure propagates. -/
def loadAll (w : World) : List Str → Except Err (List Document)
  | [] => Except.ok []
  | p :: ps =>
    match w.readFile p with
    | Except.error e => Except.error e
    | Except.ok ds =>
      match loadAll w ps with
      | Except.error e => Except.error e
      | Except.ok rest => Except.ok (ds ++ rest)

/-- Model of `RAGPipeline.add_documents` (lines 309-337): require an
initialized vector store, load all files, split, append the chunks to the
live index and persist it.  All raises occur before the mutation at line
332, so an error result models an unchanged pipeline object and disk. -/
def add_documents (w : World) (paths : List Str) (st : PState)
    (_disk : StoreState) : Except Err (PState × StoreState) :=
  match st.vectorStore with
  | none => Except.error Err.vectorStoreNotInitialized
  | some vs =>
    match loadAll w paths with
    | Except.error e => Except.error e
    | Except.ok newDocs =>
      let vs2 := vs ++ w.splitter newDocs
      Except.ok ({ st with vectorStore := some vs2 }, StoreState.valid vs2)

/-- Pipeline object and disk as observed by the caller after
`add_documents` returns or raises: on an exception both are unchanged. -/
def runAddDocuments (w : World) (paths : List Str) (st : PState)
    (disk : StoreState) : PState × StoreState :=
  match add_documents w paths st disk with
  | Except.ok r => r
  | Except.error _ => (st, disk)

/-- Sources computation of `ask` (`rag_pipeline.py` lines 257-261):
`list(set(os.path.basename(doc.metadata.get("source", "unknown")) for ...))`. -/
def extractSources (docs : List Document) : List Str :=
  dedupFirst (docs.map (fun d => basename (d.source.getD (("unknown").data))))

/-- Return value of `RAGPipeline.ask` (lines 271-276). -/
structure AnswerRecord where
  answer : Str
  sources : List Str
  contexts : List Str
  source_documents : List Document
deriving DecidableEq

/-- Model of `RAGPipeline.ask` (lines 238-276): raise when the QA chain is
not initialized, else invoke the chain and assemble answer, deduplicated
source basenames, context texts and source documents. -/
def ask (w : World) (st : PState) (q : Str) : Except Err AnswerRecord :=
  if st.qaChain then
    Except.ok
      { answer := (w.chain q).1
        sources := extractSources (w.chain q).2
        contexts := (w.chain q).2.map (fun d => d.content)
        source_documents := (w.chain q).2 }
  else
    Except.error Err.qaChainNotInitialized

/-- Body of the `/ask` endpoint response (`app/main.py` lines 126-130). -/
structure QuestionResponse where
  answer : Str
  sources : List Str
  highlighted_answer : Option Str
deriving DecidableEq

/-- Model of the `/ask` endpoint core (`app/main.py` lines 114-134): call
`ask`, compute the highlighted answer, and null it out exactly when it
equals the original answer. -/
def ask_question (w : World) (st : PState) (q : Str) :
    Except Err QuestionResponse :=
  match ask w st q with
  | Except.error e => Except.error e
  | Except.ok r =>
    let h := highlight_context r.answer r.contexts
    Except.ok
      { answer := r.answer
        sources := r.sources
        highlighted_answer := if h = r.answer then none else some h }

/-- Boolean error test on results. -/
def isErr {α : Type} : Except Err α → Bool
  | Except.error _ => true
  | Except.ok _ => false

/-- Environment with an existing but empty documents directory, an identity
splitter and trivial collaborators. -/
def trivWorld : World :=
  { docsPathExists := true
    docs := []
    splitter := fun l => l
    readFile := fun _ => Except.ok []
    chain := fun _ => ([], []) }

/-- Freshly constructed pipeline object: no vector store, no QA chain. -/
def stInit : PState := { vectorStore := none, qaChain := false }

/-- Pipeline object in the Ready state over an empty index. -/
def stReady : PState := { vectorStore := some [], qaChain := true }

/-- Example document. -/
def d1 : Document :=
  { content := ("Returns are accepted within 30 days.").data
    source := some (("policy.txt").data) }

/-- Document whose source path is a slash path with basename doc.txt. -/
def docA : Document :=
  { content := ("alpha content").data, source := some (("a/doc.txt").data) }

/-- Document with a different source path but the same basename doc.txt. -/
def docB : Document :=
  { content := ("beta content").data, source := some (("b/doc.txt").data) }

/-- Environment whose chain retrieves two chunks with distinct source paths
that share one basename. -/
def wC2 : World :=
  { trivWorld with chain := fun _ => (("an answer").data, [docA, docB]) }

/-- Record returned by `ask` in the `wC2` environment. -/
def askC2Rec : AnswerRecord :=
  { answer := ("an answer").data
    sources := [("doc.txt").data]
    contexts := [("alpha content").data, ("beta content").data]
    source_documents := [docA, docB] }

/-- Environment with a one-document corpus and an identity splitter. -/
def wC3 : World := { trivWorld with docs := [d1] }

/-- Environment in which reading bad.txt fails and any other file loads the
example document. -/
def wC5 : World :=
  { trivWorld with
    readFile := fun p =>
      if p = ("bad.txt").data then Except.error Err.readError
      else Except.ok [d1] }

/-- File list containing one readable and one unreadable file. -/
def pathsC5 : List Str := [("good.txt").data, ("bad.txt").data]

/-- Ready pipeline object holding one chunk. -/
def stC5 : PState := { vectorStore := some [docA], qaChain := true }

/-- Environment whose chain answers with a sentence of the retrieved
context, so that highlighting fires. -/
def wC9 : World :=
  { trivWorld with
    chain := fun _ =>
      ((("Yes. Returns are accepted within 30 days.").data, [d1])) }

/-- Record returned by `ask` in the `wC9` environment. -/
def askC9Rec : AnswerRecord :=
  { answer := ("Yes. Returns are accepted within 30 days.").data
    sources := [("policy.txt").data]
    contexts := [("Returns are accepted within 30 days.").data]
    source_documents := [d1] }

/-- Response returned by the `/ask` endpoint core in the `wC9`
environment: the context sentence is wrapped in bold markers. -/
def respC9 : QuestionResponse :=
  { answer := ("Yes. Returns are accepted within 30 days.").data
    sources := [("policy.txt").data]
    highlighted_answer :=
      some (("Yes. **Returns are accepted within 30 days.**").data) }

/-- Long sentence that occurs in neither test string of the C10 witness. -/
def sC10 : Str := ("the quick brown fox jumps over the lazy dog").data

/-- Nested context-then-sentence folding equals one fold over the
concatenated sentence units. -/
theorem foldl_splitSentences_flatten (f : Str → Str → Str) :
    ∀ (L : List Str) (a : Str),
      L.foldl (fun w ctx => (splitSentences [] ctx).foldl f w) a =
        (contextUnits L).foldl f a := by
  intro L
  induction L with
  | nil => intro a; rfl
  | cons c rest ih =>
    intro a
    simp only [List.foldl_cons, contextUnits, List.map_cons, List.flatten_cons,
      List.foldl_append]
    exact ih ((splitSentences [] c).foldl f a)

/-- Empty pattern occurs in every string. -/
theorem inStr_nil (s : Str) : inStr [] s = true := by
  induction s with
  | nil => rfl
  | cons c rest ih => simp [inStr, isPrefixB]

/-- Replacement with a pattern that does not occur leaves the string
unchanged. -/
theorem pyReplace_not_in (pat rep s : Str) (h : inStr pat s = false) :
    pyReplace pat rep s = s := by
  have hpat : pat ≠ [] := by
    intro hp
    rw [hp, inStr_nil] at h
    exact Bool.true_eq_false.mp h
  have hne : pat.isEmpty = false := by
    cases pat with
    | nil => exact absurd rfl hpat
    | cons a t => rfl
  rw [pyReplace, hne]
  simp only [Bool.false_eq_true, if_false]
  induction s with
  | nil => rfl
  | cons c rest ih =>
    rw [inStr] at h
    rcases Bool.or_eq_false_iff.mp h with ⟨h1, h2⟩
    rw [pyReplaceAux, h1]
    simp only [Bool.false_eq_true, if_false]
    rw [ih h2]

/-- First-occurrence deduplication produces no duplicates. -/
theorem dedupFirst_nodup {α : Type} [DecidableEq α] :
    ∀ l : List α, (dedupFirst l).Nodup := by
  intro l
  induction l with
  | nil => exact List.nodup_nil
  | cons x xs ih =>
    rw [dedupFirst]
    refine List.Nodup.cons ?_ (List.Nodup.filter _ ih)
    intro hmem
    rcases List.mem_filter.mp hmem with ⟨-, hx⟩
    exact (decide_eq_true_iff.mp hx) rfl

/-- First-occurrence deduplication preserves membership. -/
theorem mem_dedupFirst {α : Type} [DecidableEq α] :
    ∀ (l : List α) (a : α), a ∈ dedupFirst l ↔ a ∈ l := by
  intro l
  induction l with
  | nil => intro a; rfl
  | cons x xs ih =>
    intro a
    rw [dedupFirst]
    by_cases hax : a = x
    · subst hax
      simp
    · simp only [List.mem_cons, List.mem_filter, decide_eq_true_iff]
      constructor
      · rintro (h | ⟨h, -⟩)
        · exact Or.inl h
        · exact Or.inr ((ih a).mp h)
      · rintro (h | h)
        · exact Or.inl h
        · exact Or.inr ⟨(ih a).mpr h, hax⟩

/-- A failing file in the list makes the loading loop fail. -/
theorem loadAll_any_err (w : World) :
    ∀ paths : List Str,
      paths.any (fun p => isErr (w.readFile p)) = true →
        isErr (loadAll w paths) = true := by
  intro paths
  induction paths with
  | nil => intro h; exact absurd h (by simp)
  | cons p ps ih =>
    intro h
    rw [List.any_cons] at h
    rw [loadAll]
    cases hp : w.readFile p with
    | error e => rfl
    | ok ds =>
      have hps : ps.any (fun p => isErr (w.readFile p)) = true := by
        rcases Bool.or_eq_true_iff.mp h with h1 | h2
        · rw [hp] at h1
          exact absurd h1 (by simp [isErr])
        · exact h2
      cases hl : loadAll w ps with
      | error e => rfl
      | ok rest =>
        have := ih hps
        rw [hl] at this
        exact absurd this (by simp [isErr])

/-- Claim C1 (counterexample): with no persisted index, an existing but
empty documents folder and the identity splitter, `initialize` fails with
the IndexError propagated out of the vector-store library, which is not the
EmptyCorpusError kind the claim names (the repository defines no such
error). -/
theorem c1_counterexample :
    initialize_vector_store trivWorld false stInit StoreState.absent =
        Except.error Err.indexErrorEmpty ∧
      Err.indexErrorEmpty ≠ Err.emptyCorpus :=
  ⟨rfl, by decide⟩

/-- Claim C1 (amended): when no persisted index exists, the documents
location exists and chunking yields zero chunks, `initialize` with
`force_rebuild = false` fails — with the untyped IndexError propagated from
the vector-store construction rather than a distinguishable
EmptyCorpusError — and the pipeline object and disk are unchanged, so the
pipeline does not reach the Ready state. -/
theorem c1_empty_corpus_fails_not_ready (w : World) (st : PState)
    (hdocs : w.docsPathExists = true) (hchunks : w.splitter w.docs = []) :
    initialize_vector_store w false st StoreState.absent =
        Except.error Err.indexErrorEmpty ∧
      runInitializeVectorStore w false st StoreState.absent =
        (st, StoreState.absent) := by
  have hmain : initialize_vector_store w false st StoreState.absent =
      Except.error Err.indexErrorEmpty := by
    rw [initialize_vector_store]
    simp only [storePathExists, Bool.false_and, Bool.false_eq_true, if_false]
    rw [load_documents, hdocs]
    simp only [if_true]
    rw [hchunks]
    rfl
  refine ⟨hmain, ?_⟩
  rw [runInitializeVectorStore, hmain]

/-- Claim C1 (witness): the amended statement at the concrete empty
environment. -/
theorem c1_witness :
    trivWorld.docsPathExists = true ∧
      trivWorld.splitter trivWorld.docs = [] ∧
      (initialize_vector_store trivWorld false stInit StoreState.absent =
          Except.error Err.indexErrorEmpty ∧
        runInitializeVectorStore trivWorld false stInit StoreState.absent =
          (stInit, StoreState.absent)) :=
  ⟨rfl, rfl, c1_empty_corpus_fails_not_ready trivWorld stInit rfl rfl⟩

/-- Claim C2 (counterexample): two retrieved chunks with distinct
source paths `a/doc.txt` and `b/doc.txt` yield ONE entry in `sources`
(their common basename `doc.txt`), not two, because `ask` applies
`os.path.basename` before deduplicating. -/
theorem c2_counterexample :
    ask wC2 stReady [] = Except.ok askC2Rec ∧
      askC2Rec.sources = [("doc.txt").data] ∧
      askC2Rec.sources.length = 1 ∧
      docA.source ≠ docB.source :=
  ⟨rfl, rfl, rfl, by decide⟩

/-- Claim C2 (amended): the `sources` list of every successful `ask` call
contains each distinct BASENAME of the retrieved chunks' source paths
exactly once (a missing source contributes the basename of `unknown`):
basename extraction is applied to each path before duplicate collapse, so
chunks with distinct source paths sharing one basename yield one entry. -/
theorem c2_sources_dedup_basenames (w : World) (st : PState) (q : Str)
    (r : AnswerRecord) (hask : ask w st q = Except.ok r) :
    r.sources.Nodup ∧
      ∀ s : Str, s ∈ r.sources ↔
        s ∈ r.source_documents.map
          (fun d => basename (d.source.getD (("unknown").data))) := by
  rw [ask] at hask
  by_cases hq : st.qaChain
  · rw [if_pos hq] at hask
    injection hask with hr
    subst hr
    refine ⟨dedupFirst_nodup _, ?_⟩
    intro s
    exact mem_dedupFirst _ s
  · rw [if_neg hq] at hask
    exact absurd hask (by simp)

/-- Claim C2 (witness): the amended statement at the concrete two-chunk
retrieval, instantiated at the shared basename. -/
theorem c2_witness :
    askC2Rec.sources.Nodup ∧
      ((("doc.txt").data ∈ askC2Rec.sources) ↔
        ("doc.txt").data ∈ askC2Rec.source_documents.map
          (fun d => basename (d.source.getD (("unknown").data)))) :=
  ⟨(c2_sources_dedup_basenames wC2 stReady [] askC2Rec rfl).1,
    (c2_sources_dedup_basenames wC2 stReady [] askC2Rec rfl).2 (("doc.txt").data)⟩

/-- Claim C3 (counterexample): with a store location that exists but does
not hold a valid serialized index — a StorageNotFoundError condition per the
claim — `initialize` with `force_rebuild = false` fails with the propagated
load error instead of falling back to the fresh-build path, even though the
fresh build would have succeeded (same environment, absent location,
builds and persists the one-chunk index). -/
theorem c3_counterexample :
    initialize_vector_store wC3 false stInit StoreState.invalid =
        Except.error Err.loadLocalFailure ∧
      initialize_vector_store wC3 false stInit StoreState.absent =
        Except.ok ({ vectorStore := some [d1], qaChain := true },
          StoreState.valid [d1]) :=
  ⟨rfl, rfl⟩

/-- Claim C3 (amended): during `initialize` with `force_rebuild = false`,
only an ABSENT store location falls back to the fresh-build path (load the
documents, chunk, build, persist); a location that exists but does not hold
a valid serialized index makes the load failure propagate and
initialization fails. -/
theorem c3_fallback_only_when_absent (w : World) (st : PState)
    (hdocs : w.docsPathExists = true) (c : Document) (cs : List Document)
    (hchunks : w.splitter w.docs = c :: cs) :
    initialize_vector_store w false st StoreState.invalid =
        Except.error Err.loadLocalFailure ∧
      initialize_vector_store w false st StoreState.absent =
        Except.ok ({ st with vectorStore := some (c :: cs), qaChain := true },
          StoreState.valid (c :: cs)) := by
  constructor
  · rfl
  · rw [initialize_vector_store]
    simp only [storePathExists, Bool.false_and, Bool.false_eq_true, if_false]
    rw [load_documents, hdocs]
    simp only [if_true]
    rw [hchunks]
    rfl

/-- Claim C3 (witness): the amended statement at the concrete one-document
corpus. -/
theorem c3_witness :
    wC3.docsPathExists = true ∧
      wC3.splitter wC3.docs = [d1] ∧
      (initialize_vector_store wC3 false stInit StoreState.invalid =
          Except.error Err.loadLocalFailure ∧
        initialize_vector_store wC3 false stInit StoreState.absent =
          Except.ok ({ stInit with vectorStore := some [d1], qaChain := true },
            StoreState.valid [d1])) :=
  ⟨rfl, rfl, c3_fallback_only_when_absent wC3 stInit rfl d1 [] rfl⟩

/-- Claim C4: `highlight_context` equals the flat pass the claim describes —
split each context into units at sentence-ending punctuation followed by
whitespace, trim each unit, and for each trimmed unit that is longer than 20
characters and occurs verbatim in the (original) answer replace every
occurrence of it in the working string with its emphasis-wrapped form;
every other unit leaves the working string unchanged. -/
theorem c4_highlight_characterization (answer : Str) (contexts : List Str) :
    highlight_context answer contexts =
      (contextUnits contexts).foldl
        (fun work sentence =>
          let clean := pyStrip sentence
          if 20 < clean.length ∧ inStr clean answer = true then
            pyReplace clean (boldWrap clean) work
          else
            work)
        answer :=
  foldl_splitSentences_flatten (highlightStep answer) contexts answer

/-- Claim C5: if reading any one of the given files fails, `add_documents`
fails and the pipeline object and the persisted store are exactly unchanged
(the source loads every file before inserting anything, so no partial
chunks of any file are inserted). -/
theorem c5_add_documents_read_failure_leaves_index_unchanged (w : World)
    (paths : List Str) (st : PState) (disk : StoreState)
    (hfail : paths.any (fun p => isErr (w.readFile p)) = true) :
    isErr (add_documents w paths st disk) = true ∧
      runAddDocuments w paths st disk = (st, disk) := by
  have hmain : isErr (add_documents w paths st disk) = true := by
    rw [add_documents]
    cases hvs : st.vectorStore with
    | none => rfl
    | some vs =>
      have hload := loadAll_any_err w paths hfail
      cases hl : loadAll w paths with
      | error e => rfl
      | ok ds =>
        rw [hl] at hload
        exact absurd hload (by simp [isErr])
  refine ⟨hmain, ?_⟩
  rw [runAddDocuments]
  cases hadd : add_documents w paths st disk with
  | error e => rfl
  | ok r =>
    rw [hadd] at hmain
    exact absurd hmain (by simp [isErr])

/-- Claim C5 (witness): the unreadable file bad.txt makes the call fail and
leaves the one-chunk index and its persisted form unchanged. -/
theorem c5_witness :
    pathsC5.any (fun p => isErr (wC5.readFile p)) = true ∧
      (isErr (add_documents wC5 pathsC5 stC5 (StoreState.valid [docA])) = true ∧
        runAddDocuments wC5 pathsC5 stC5 (StoreState.valid [docA]) =
          (stC5, StoreState.valid [docA])) :=
  ⟨rfl, c5_add_documents_read_failure_leaves_index_unchanged wC5 pathsC5 stC5
    (StoreState.valid [docA]) rfl⟩

/-- Claim C6: `initialize` takes exactly one of two paths.  If a valid
persisted index exists and `force_rebuild` is false, it is loaded and
becomes the live index and the QA chain is created — the result does not
depend on the documents location at all.  Otherwise (absent store or forced
rebuild), with an existing documents location and a nonempty chunking, the
documents are loaded, chunked, built into a fresh index that is persisted,
becomes the live index, and the QA chain is created. -/
theorem c6_initialize_two_paths (w : World) (force : Bool) (st : PState)
    (disk : StoreState) (c : List Document) :
    (disk = StoreState.valid c →
      initialize_vector_store w false st disk =
        Except.ok ({ st with vectorStore := some c, qaChain := true },
          StoreState.valid c)) ∧
    ((storePathExists disk = false ∨ force = true) →
      w.docsPathExists = true →
      w.splitter w.docs ≠ [] →
      initialize_vector_store w force st disk =
        Except.ok
          ({ st with vectorStore := some (w.splitter w.docs), qaChain := true },
            StoreState.valid (w.splitter w.docs))) := by
  constructor
  · intro hdisk
    subst hdisk
    rfl
  · intro hbranch hdocs hne
    have hcond : (storePathExists disk && !force) = false := by
      rcases hbranch with h1 | h2
      · rw [h1]; rfl
      · rw [h2]; simp
    rw [initialize_vector_store, hcond]
    simp only [Bool.false_eq_true, if_false]
    rw [load_documents, hdocs]
    simp only [if_true]
    cases hchunks : w.splitter w.docs with
    | nil => exact absurd hchunks hne
    | cons a t => rfl

/-- Claim C6 (witness): both paths at concrete inputs — loading the
persisted one-chunk index, and a forced rebuild from the one-document
corpus. -/
theorem c6_witness :
    (StoreState.valid [d1] = StoreState.valid [d1] →
      initialize_vector_store wC3 false stInit (StoreState.valid [d1]) =
        Except.ok (PState.mk (some [d1]) true, StoreState.valid [d1])) ∧
      ((storePathExists (StoreState.valid [d1]) = false ∨ true = true) →
        wC3.docsPathExists = true →
        wC3.splitter wC3.docs ≠ [] →
        initialize_vector_store wC3 true stInit (StoreState.valid [d1]) =
          Except.ok (PState.mk (some (wC3.splitter wC3.docs)) true,
            StoreState.valid (wC3.splitter wC3.docs))) :=
  c6_initialize_two_paths wC3 true stInit (StoreState.valid [d1]) [d1]

/-- Claim C7: calling `ask` while the QA chain has not been created (the
pipeline is not Ready) fails with the not-initialized ValueError of
`rag_pipeline.py` line 249 and returns no answer record. -/
theorem c7_ask_not_ready_fails (w : World) (st : PState) (q : Str)
    (h : st.qaChain = false) :
    ask w st q = Except.error Err.qaChainNotInitialized := by
  rw [ask, h]
  rfl

/-- Claim C7 (witness): a fresh pipeline object rejects a question. -/
theorem c7_witness :
    stInit.qaChain = false ∧
      ask trivWorld stInit (("hi").data) =
        Except.error Err.qaChainNotInitialized :=
  ⟨rfl, c7_ask_not_ready_fails trivWorld stInit (("hi").data) rfl⟩

/-- Claim C8: highlighting with an empty context sequence returns the
answer exactly unchanged. -/
theorem c8_highlight_empty_contexts_identity (answer : Str) :
    highlight_context answer [] = answer := rfl

/-- Claim C9: in the `/ask` response the `highlighted_answer` field is null
exactly when the highlighter output equals the original answer, and
otherwise it is exactly the highlighter output. -/
theorem c9_highlighted_answer_null_iff_no_change (w : World) (st : PState)
    (q : Str) (r : AnswerRecord) (resp : QuestionResponse)
    (hask : ask w st q = Except.ok r)
    (hresp : ask_question w st q = Except.ok resp) :
    (resp.highlighted_answer = none ↔
        highlight_context r.answer r.contexts = r.answer) ∧
      (highlight_context r.answer r.contexts ≠ r.answer →
        resp.highlighted_answer = some (highlight_context r.answer r.contexts)) := by
  rw [ask_question, hask] at hresp
  injection hresp with hr
  subst hr
  by_cases hc : highlight_context r.answer r.contexts = r.answer
  · simp [hc]
  · simp [hc]

/-- Claim C9 (witness): the concrete retrieval whose context sentence is
part of the answer yields a non-null highlighted answer equal to the
highlighter output. -/
theorem c9_witness :
    (respC9.highlighted_answer = none ↔
        highlight_context askC9Rec.answer askC9Rec.contexts = askC9Rec.answer) ∧
      (highlight_context askC9Rec.answer askC9Rec.contexts ≠ askC9Rec.answer →
        respC9.highlighted_answer =
          some (highlight_context askC9Rec.answer askC9Rec.contexts)) :=
  c9_highlighted_answer_null_iff_no_change wC9 stReady [] askC9Rec respC9 rfl rfl

/-- Claim C10: the occurrence test of the highlighter is evaluated against
the original answer, not the working string: a unit whose trimmed form does
not occur in the original answer never changes the working string (even if
it occurs there, for example because of markers inserted by earlier
replacements), and a unit whose trimmed form no longer occurs in the
working string leaves it unchanged in that iteration. -/
theorem c10_occurrence_test_against_original (answer work sentence : Str) :
    (inStr (pyStrip sentence) answer = false →
      highlightStep answer work sentence = work) ∧
      (inStr (pyStrip sentence) work = false →
        highlightStep answer work sentence = work) := by
  constructor
  · intro h
    rw [highlightStep]
    simp only [h]
    simp
  · intro h
    rw [highlightStep]
    by_cases hcond : 20 < (pyStrip sentence).length ∧
        inStr (pyStrip sentence) answer = true
    · simp only [hcond, if_pos]
      exact pyReplace_not_in _ _ _ h
    · simp only [if_neg hcond]

/-- Claim C10 (witness): a long sentence occurring in neither the answer
nor the working string changes nothing. -/
theorem c10_witness :
    inStr (pyStrip sC10) (("alpha").data) = false ∧
      inStr (pyStrip sC10) (("beta gamma").data) = false ∧
      highlightStep (("alpha").data) (("beta gamma").data) sC10 =
        ("beta gamma").data ∧
      highlightStep (("alpha").data) (("beta gamma").data) sC10 =
        ("beta gamma").data :=
  ⟨rfl, rfl,
    (c10_occurrence_test_against_original (("alpha").data) (("beta gamma").data)
      sC10).1 rfl,
    (c10_occurrence_test_against_original (("alpha").data) (("beta gamma").data)
      sC10).2 rfl⟩

end RAG
